import Mathlib

/-!
Verification development for the image-ingestion utilities of
`src/platform/wab/src/wab/client/dom-utils.ts`.

Conventions of the shallow embedding:
* JavaScript byte buffers are `List Nat` (each entry a byte value); an
  out-of-range `DataView` read, which throws in JavaScript, is `none`.
* Browser and library collaborators that live outside the reviewed file
  (data-URL parsing, SVG color gathering, the remote SVG-processing and
  upload APIs, the bitmap downscaler) are fields of explicit environment
  records; the control flow translated here is exactly the reviewed file's.
* Side effects (user-facing notifications, calls to the upload API) are
  returned as explicit traces alongside the function results.
-/

/-- Offset constant from dom-utils.ts: bytes of the GIF header section. -/
def HEADER_LEN : Nat := 6

/-- Offset constant from dom-utils.ts: bytes of the Logical Screen Descriptor. -/
def LOGICAL_SCREEN_DESC_LEN : Nat := 7

/-- Maximum image dimension used by the downscaler (dom-utils.ts line 34). -/
def MaxImageDim : Nat := 4096

/-- Byte threshold above which downscaling starts (dom-utils.ts line 38). -/
def DownscaleImageSizeThreshold : Nat := 4 * 1024 * 1024

/-- Read one byte of a buffer through a DataView based at `base`:
`dv.getUint8 i` on a DataView constructed at byte offset `base`.
JavaScript throws on an out-of-range read; that is `none` here. -/
def dvGetUint8 (bytes : List Nat) (base i : Nat) : Option Nat :=
  bytes.get? (base + i)

/-- Read a big-endian 16-bit value through a DataView based at `base`:
`dv.getUint16 i` (DataView.getUint16 defaults to big-endian). -/
def dvGetUint16 (bytes : List Nat) (base i : Nat) : Option Nat :=
  match bytes.get? (base + i), bytes.get? (base + i + 1) with
  | some hi, some lo => some (hi * 256 + lo)
  | _, _ => none

/-- Core of `isAnimatedGif` (dom-utils.ts lines 74-115), acting on the bytes
produced by decoding the data URL's base64 payload (the strip of the
`data:...,` prefix and `window.atob` are browser primitives and happen before
this function's logic).  A DataView is based at
`HEADER_LEN + LOGICAL_SCREEN_DESC_LEN - 3 = 10`; the packed byte is read at
DataView offset 0; if its high bit is set the Global Color Table size is
`3 * 2 ^ ((packed &&& 7) + 1)`; the extension introducer and label are read at
offsets `3 + size` and `4 + size`, checked with bitwise AND against `0x21`
and `0xf9` (nonzero means the JavaScript condition is truthy); when the check
passes the delay is `getUint16` at offset `7 + size`; the result is
`delayTime > 0`.  Reads that would be out of range (a thrown RangeError in
JavaScript) give `none`. -/
def isAnimatedGif (bytes : List Nat) : Option Bool :=
  let base := HEADER_LEN + LOGICAL_SCREEN_DESC_LEN - 3
  match dvGetUint8 bytes base 0 with
  | none => none
  | some globalColorTable =>
    let globalColorTableSize :=
      if globalColorTable &&& 0x80 ≠ 0 then
        3 * 2 ^ ((globalColorTable &&& 0x7) + 1)
      else 0
    let offset := 3 + globalColorTableSize
    match dvGetUint8 bytes base offset, dvGetUint8 bytes base (offset + 1) with
    | some extensionIntroducer, some graphicsConrolLabel =>
      if extensionIntroducer &&& 0x21 ≠ 0 ∧ graphicsConrolLabel &&& 0xf9 ≠ 0 then
        match dvGetUint16 bytes base (offset + 4) with
        | some delayTime => some (decide (delayTime > 0))
        | none => none
      else
        some false
    | _, _ => none

/-- Global Color Table size for a packed byte, as computed in
dom-utils.ts lines 94-98. -/
def gctSize (packed : Nat) : Nat :=
  if packed &&& 0x80 ≠ 0 then 3 * 2 ^ ((packed &&& 0x7) + 1) else 0

/-- Shape of a byte list that the GIF claims quantify over: a 6-byte GIF
signature, a 7-byte Logical Screen Descriptor whose packed byte is `packed`,
a Global Color Table of `gctSize packed` bytes when the packed byte's high
bit is set, then a Graphics Control Extension whose introducer and label
bytes are `intro` and `label` and whose delay-time bytes (4 and 5 bytes into
the extension, little-endian low byte first per the GIF format) are `d4` and
`d5`. -/
structure GifLayout (bytes : List Nat) (packed intro label d4 d5 : Nat) : Prop where
  sig0 : bytes.get? 0 = some 0x47
  sig1 : bytes.get? 1 = some 0x49
  sig2 : bytes.get? 2 = some 0x46
  packedAt : bytes.get? 10 = some packed
  introAt : bytes.get? (13 + gctSize packed) = some intro
  labelAt : bytes.get? (14 + gctSize packed) = some label
  delayLoAt : bytes.get? (17 + gctSize packed) = some d4
  delayHiAt : bytes.get? (18 + gctSize packed) = some d5

/-- Valid GIF with no Global Color Table, introducer 0x21, label 0xf9,
delay-time bytes 10 and 0 (delay 10). -/
def gifAnimatedEx : List Nat :=
  [0x47, 0x49, 0x46, 0x38, 0x39, 0x61, 1, 0, 1, 0, 0, 0, 0,
   0x21, 0xf9, 4, 0, 10, 0]

/-- Byte sequence shaped like a GIF except that the two bytes at the
Graphics Control Extension position are 0x01 and 0x01 instead of the
introducer 0x21 and label 0xf9; the delay-time bytes are 10 and 0. -/
def gifFakeGceEx : List Nat :=
  [0x47, 0x49, 0x46, 0x38, 0x39, 0x61, 1, 0, 1, 0, 0, 0, 0,
   0x01, 0x01, 4, 0, 10, 0]

/-- C1: for every data URL whose decoded bytes form a valid GIF (6-byte
header, 7-byte Logical Screen Descriptor with packed byte `packed`, a Global
Color Table of `3 * 2 ^ ((packed &&& 7) + 1)` bytes exactly when the packed
byte's high bit is set, then a Graphics Control Extension with introducer
0x21 and label 0xf9), `isAnimatedGif` returns true if and only if the
delay-time field read 4 bytes into the Graphics Control Extension (bytes
`d4` then `d5`, little-endian value `d4 + 256 * d5`) is greater than 0: the
result is exactly `decide (0 < d4 + 256 * d5)`, so every valid non-animated
GIF (delay 0) gives false and every GIF with delay greater than 0 gives
true. -/
theorem isAnimatedGif_iff_delay_pos (bytes : List Nat) (packed d4 d5 : Nat)
    (h : GifLayout bytes packed 0x21 0xf9 d4 d5) :
    isAnimatedGif bytes = some (decide (0 < d4 + 256 * d5)) := by
  have hi : bytes.get? (6 + 7 - 3 + (3 + gctSize packed)) = some 0x21 := by
    rw [show 6 + 7 - 3 + (3 + gctSize packed) = 13 + gctSize packed by omega]
    exact h.introAt
  have hl : bytes.get? (6 + 7 - 3 + (3 + gctSize packed + 1)) = some 0xf9 := by
    rw [show 6 + 7 - 3 + (3 + gctSize packed + 1) = 14 + gctSize packed by omega]
    exact h.labelAt
  have h4 : bytes.get? (6 + 7 - 3 + (3 + gctSize packed + 4)) = some d4 := by
    rw [show 6 + 7 - 3 + (3 + gctSize packed + 4) = 17 + gctSize packed by omega]
    exact h.delayLoAt
  have h5 : bytes.get? (6 + 7 - 3 + (3 + gctSize packed + 4) + 1) = some d5 := by
    rw [show 6 + 7 - 3 + (3 + gctSize packed + 4) + 1 = 18 + gctSize packed by omega]
    exact h.delayHiAt
  unfold isAnimatedGif dvGetUint8 dvGetUint16
  simp only [HEADER_LEN, LOGICAL_SCREEN_DESC_LEN]
  rw [show (6 + 7 - 3 + 0 : Nat) = 10 by norm_num, h.packedAt]
  dsimp only
  rw [show (if packed &&& 0x80 ≠ 0 then 3 * 2 ^ ((packed &&& 0x7) + 1) else 0) =
      gctSize packed from gctSize.eq_def packed ▸ rfl]
  rw [hi, hl]
  dsimp only
  rw [if_pos (by decide : (0x21 : Nat) &&& 0x21 ≠ 0 ∧ (0xf9 : Nat) &&& 0xf9 ≠ 0)]
  rw [h4, h5]
  dsimp only
  simp only [Option.some.injEq, decide_eq_decide]
  omega

/-- Witness for C1: the concrete animated GIF `gifAnimatedEx` satisfies the
layout hypothesis with delay bytes 10 and 0, and `isAnimatedGif` returns
true on it. -/
theorem isAnimatedGif_iff_delay_pos_witness :
    GifLayout gifAnimatedEx 0 0x21 0xf9 10 0 ∧
      isAnimatedGif gifAnimatedEx = some true := by
  have hlay : GifLayout gifAnimatedEx 0 0x21 0xf9 10 0 :=
    ⟨by decide, by decide, by decide, by decide, by decide, by decide,
     by decide, by decide⟩
  exact ⟨hlay, by simpa using isAnimatedGif_iff_delay_pos gifAnimatedEx 0 10 0 hlay⟩

/-- C2: the byte pair (0x01, 0x01) differs from (0x21, 0xf9), yet both
bitwise-AND checks of `isAnimatedGif` are nonzero on it, so on the concrete
byte sequence `gifFakeGceEx`, whose bytes at the Graphics Control Extension
position are 0x01 and 0x01, the function still reads the delay field and
returns true: a false positive of the mask-based check. -/
theorem isAnimatedGif_bitmask_false_positive :
    ((0x01, 0x01) : Nat × Nat) ≠ (0x21, 0xf9) ∧
      (0x01 : Nat) &&& 0x21 ≠ 0 ∧ (0x01 : Nat) &&& 0xf9 ≠ 0 ∧
      GifLayout gifFakeGceEx 0 0x01 0x01 10 0 ∧
      isAnimatedGif gifFakeGceEx = some true := by
  refine ⟨by decide, by decide, by decide, ?_, by decide⟩
  exact ⟨by decide, by decide, by decide, by decide, by decide, by decide,
         by decide, by decide⟩

/-- Modelled from the spec: the aspect-ratio scale factor imported from
@/wab/tpls (outside the reviewed sources); no claim below depends on its
value. -/
def ASPECT_RATIO_SCALE_FACTOR : ℚ := 1000000

/-- Embedding of the `ResizableImage` class (dom-utils.ts lines 117-170):
an encoded payload (data URL or remote URI), pixel dimensions, and an
optional declared aspect ratio.  `aspectRatio = none` is JavaScript
undefined. -/
structure ResizableImage where
  url : String
  width : Nat
  height : Nat
  aspectRatio : Option ℚ
deriving DecidableEq, Repr

/-- Getter `scaledRoundedAspectRatio` (dom-utils.ts lines 125-130): when the
aspect ratio is truthy (present and nonzero), round it scaled by
`ASPECT_RATIO_SCALE_FACTOR`; otherwise return it as is. -/
def ResizableImage.scaledRoundedAspectRatio (img : ResizableImage) : Option ℚ :=
  match img.aspectRatio with
  | some a => if a ≠ 0 then some ((round (ASPECT_RATIO_SCALE_FACTOR * a) : ℤ) : ℚ) else some a
  | none => none

/-- Getter `actualAspectRatio` (dom-utils.ts lines 132-134). -/
def ResizableImage.actualAspectRatio (img : ResizableImage) : Option ℚ :=
  img.aspectRatio

/-- Modelled from the spec: the SVG media type constant imported from
@/wab/shared/data-urls (outside the reviewed sources); the standard SVG
MIME type. Claims below only compare against it, never inspect it. -/
def SVG_MEDIA_TYPE : String := "image/svg+xml"

/-- Asset types from @/wab/image-asset-type: a binary enum, Picture or Icon. -/
inductive ImageAssetType where
  | Picture
  | Icon
deriving DecidableEq, Repr

/-- Modelled from the spec: the result of the external parse-data-url npm
package, exposing the content/media type of the data URL and its (base64)
payload; a string that does not parse gives `none` in the environments
below. -/
structure ParsedDataUrl where
  contentType : String
  mediaType : String
  data : String
deriving DecidableEq, Repr

/-- Opaque model of a parsed SVG DOM element (the reviewed file only passes
it between external collaborators, never inspects it). -/
abbrev SvgElt : Type := String

/-- Modelled from the spec: the external collaborators used by
`deriveImageAssetTypeAndUri` from dom-utils.ts — the parse-data-url npm
package, the browser's `atob` and XML serializer, and the svg-utils and
data-urls modules of @/wab/shared (outside the reviewed sources).  The
gathered colors are the values of the JavaScript color Set in iteration
order (case-normalized, with the sentinel string "currentcolor"), so
`List.length`, `List.contains` and `List.head?` are the Set's `size`,
`has` and first value. -/
structure SvgEnv where
  parseDataUrl : String → Option ParsedDataUrl
  atob : String → String
  parseSvgXml : String → SvgElt
  gatherSvgColors : SvgElt → List String
  convertSvgToTextSized : SvgElt → SvgElt
  clearExplicitColors : SvgElt → SvgElt
  serializeToString : SvgElt → String
  asSvgDataUrl : String → String

/-- Model of JavaScript's String.prototype.startsWith used at
dom-utils.ts line 515, phrased over the character data so it computes by
structural recursion. -/
def strStartsWith (s pre : String) : Bool :=
  pre.data.isPrefixOf s.data

/-- Result record of `deriveImageAssetTypeAndUri`; `iconColor = none` models
a JavaScript result object whose iconColor field is absent or undefined. -/
structure DeriveResult where
  dataUri : String
  type : ImageAssetType
  iconColor : Option String
deriving DecidableEq, Repr

/-- Embedding of `deriveImageAssetTypeAndUri` (dom-utils.ts lines 478-553).
The first component is the returned value (`none` is JavaScript undefined);
the second is the list of user-facing `notification.error` messages emitted
during the call. -/
def deriveImageAssetTypeAndUri (env : SvgEnv) (image : ResizableImage)
    (optsType : Option ImageAssetType) : Option DeriveResult × List String :=
  let dataUri := image.url
  match env.parseDataUrl dataUri with
  | none => (none, ["Error loading image"])
  | some parsed =>
    let contentType := parsed.contentType
    if optsType = some ImageAssetType.Picture then
      (some ⟨dataUri, ImageAssetType.Picture, none⟩, [])
    else if contentType = SVG_MEDIA_TYPE then
      let svgElt := env.parseSvgXml (env.atob parsed.data)
      let colors := env.gatherSvgColors svgElt
      let shouldBeIcon : Bool :=
        (optsType == some ImageAssetType.Icon) ||
        colors.contains "currentcolor" ||
        (decide (colors.length ≤ 1) &&
          ((colors.length == 0) || colors.all (fun v => !strStartsWith v "url")))
      if shouldBeIcon then
        let svgElt1 := env.convertSvgToTextSized svgElt
        let svgElt2 :=
          if !colors.contains "currentcolor" && decide (colors.length ≤ 1) then
            env.clearExplicitColors svgElt1
          else svgElt1
        let dataUri1 := env.asSvgDataUrl (env.serializeToString svgElt2)
        let color : Option String :=
          if colors.length = 1 then colors.head? else none
        (some ⟨dataUri1, ImageAssetType.Icon,
          if color = some "currentcolor" then none else color⟩, [])
      else if optsType = none then
        (some ⟨dataUri, ImageAssetType.Picture, none⟩, [])
      else
        (none, ["Can only use svg images with one color as icons"])
    else if optsType = none then
      (some ⟨dataUri, ImageAssetType.Picture, none⟩, [])
    else
      (none, ["Can only use svg images as icons"])

/-- Concrete environment whose SVG carries two distinct literal colors; the
text-sizing and color-clearing transforms tag their input so their
application is visible in the output. -/
def svgTwoColorEnv : SvgEnv where
  parseDataUrl := fun _ => some ⟨"image/svg+xml", "image/svg+xml", "PHN2Zz4"⟩
  atob := fun s => s
  parseSvgXml := fun s => s
  gatherSvgColors := fun _ => ["#ff0000", "#00ff00"]
  convertSvgToTextSized := fun s => "sized:" ++ s
  clearExplicitColors := fun s => "cleared:" ++ s
  serializeToString := fun s => s
  asSvgDataUrl := fun s => "data:image/svg+xml;base64," ++ s

/-- Concrete image handed to the classifier in the examples below. -/
def twoColorImage : ResizableImage :=
  ⟨"data:image/svg+xml;base64,PHN2Zz4", 100, 50, none⟩

/-- Variant environment whose SVG carries exactly one literal color. -/
def svgOneColorEnv : SvgEnv :=
  { svgTwoColorEnv with gatherSvgColors := fun _ => ["#ff0000"] }

/-- Variant environment whose SVG carries only the currentcolor sentinel. -/
def svgCcEnv : SvgEnv :=
  { svgTwoColorEnv with gatherSvgColors := fun _ => ["currentcolor"] }

/-- Variant environment whose data URL does not parse. -/
def parseFailEnv : SvgEnv :=
  { svgTwoColorEnv with parseDataUrl := fun _ => none }

/-- Counterexample to C3: on a concrete SVG with the two distinct literal
colors #ff0000 and #00ff00 and caller-requested type Icon,
`deriveImageAssetTypeAndUri` does not return undefined and emits no error:
it returns an Icon classification, because the explicit Icon request is the
first disjunct of shouldBeIcon. -/
theorem derive_twoColor_icon_request_counterexample :
    (svgTwoColorEnv.gatherSvgColors
        (svgTwoColorEnv.parseSvgXml (svgTwoColorEnv.atob "PHN2Zz4"))).length = 2 ∧
    deriveImageAssetTypeAndUri svgTwoColorEnv twoColorImage
        (some ImageAssetType.Icon) =
      (some ⟨"data:image/svg+xml;base64,sized:PHN2Zz4",
        ImageAssetType.Icon, none⟩, []) :=
  ⟨rfl, rfl⟩

/-- C3 as amended: for every SVG data URL whose gathered color set has two
or more distinct literal colors and no currentcolor, a caller-requested
type Icon is honored rather than rejected: `deriveImageAssetTypeAndUri`
returns an Icon result whose dataUri is the re-serialized text-sized SVG
(not color-cleared) with iconColor undefined, and emits no error — the
"Can only use svg images with one color as icons" message is unreachable
when Icon was requested, since the request itself satisfies shouldBeIcon. -/
theorem derive_icon_request_honored (env : SvgEnv) (image : ResizableImage)
    (parsed : ParsedDataUrl) (colors : List String)
    (hp : env.parseDataUrl image.url = some parsed)
    (hct : parsed.contentType = SVG_MEDIA_TYPE)
    (hcolors : env.gatherSvgColors (env.parseSvgXml (env.atob parsed.data)) = colors)
    (hlen : 2 ≤ colors.length)
    (hcc : "currentcolor" ∉ colors) :
    deriveImageAssetTypeAndUri env image (some ImageAssetType.Icon) =
      (some ⟨env.asSvgDataUrl (env.serializeToString
          (env.convertSvgToTextSized (env.parseSvgXml (env.atob parsed.data)))),
        ImageAssetType.Icon, none⟩, []) := by
  have hcont : colors.contains "currentcolor" = false := by simpa using hcc
  have hdec : decide (colors.length ≤ 1) = false := by
    simp
    omega
  have hone : ¬ colors.length = 1 := by omega
  unfold deriveImageAssetTypeAndUri
  dsimp only
  rw [hp]
  dsimp only
  rw [if_neg (by simp :
    ¬ ((some ImageAssetType.Icon : Option ImageAssetType) = some ImageAssetType.Picture))]
  rw [if_pos hct, hcolors, hcont, hdec]
  simp [hone]

/-- Witness for the amended C3 theorem at the concrete two-color
environment. -/
theorem derive_icon_request_honored_witness :
    deriveImageAssetTypeAndUri svgTwoColorEnv twoColorImage
        (some ImageAssetType.Icon) =
      (some ⟨"data:image/svg+xml;base64,sized:PHN2Zz4",
        ImageAssetType.Icon, none⟩, []) :=
  derive_icon_request_honored svgTwoColorEnv twoColorImage
    ⟨"image/svg+xml", "image/svg+xml", "PHN2Zz4"⟩ ["#ff0000", "#00ff00"]
    rfl rfl rfl (by norm_num) (by decide)

/-- C4: with no requested type, an SVG whose gathered color set is exactly
one literal color c (not currentcolor, not a url(...) reference) classifies
as Icon with iconColor c and a dataUri that re-encodes the SVG after
clearExplicitColors removed that color from all elements; and an SVG whose
color set is only currentcolor classifies as Icon with iconColor undefined
and no color clearing. -/
theorem derive_single_color_icon (env : SvgEnv) (image : ResizableImage)
    (parsed : ParsedDataUrl)
    (hp : env.parseDataUrl image.url = some parsed)
    (hct : parsed.contentType = SVG_MEDIA_TYPE) :
    (∀ c, env.gatherSvgColors (env.parseSvgXml (env.atob parsed.data)) = [c] →
      c ≠ "currentcolor" → strStartsWith c "url" = false →
      deriveImageAssetTypeAndUri env image none =
        (some ⟨env.asSvgDataUrl (env.serializeToString (env.clearExplicitColors
            (env.convertSvgToTextSized (env.parseSvgXml (env.atob parsed.data))))),
          ImageAssetType.Icon, some c⟩, [])) ∧
    (env.gatherSvgColors (env.parseSvgXml (env.atob parsed.data)) = ["currentcolor"] →
      deriveImageAssetTypeAndUri env image none =
        (some ⟨env.asSvgDataUrl (env.serializeToString
            (env.convertSvgToTextSized (env.parseSvgXml (env.atob parsed.data)))),
          ImageAssetType.Icon, none⟩, [])) := by
  constructor
  · intro c hcolors hc hurl
    unfold deriveImageAssetTypeAndUri
    dsimp only
    rw [hp]
    dsimp only
    rw [if_neg (by simp :
      ¬ ((none : Option ImageAssetType) = some ImageAssetType.Picture))]
    rw [if_pos hct, hcolors]
    simp [hc, hurl, Ne.symm hc]
  · intro hcolors
    unfold deriveImageAssetTypeAndUri
    dsimp only
    rw [hp]
    dsimp only
    rw [if_neg (by simp :
      ¬ ((none : Option ImageAssetType) = some ImageAssetType.Picture))]
    rw [if_pos hct, hcolors]
    simp

/-- Witness for C4 at the one-color and currentcolor environments: the
one-color result carries the cleared, text-sized SVG and iconColor #ff0000;
the currentcolor result carries the uncleared text-sized SVG and no
iconColor. -/
theorem derive_single_color_icon_witness :
    deriveImageAssetTypeAndUri svgOneColorEnv twoColorImage none =
      (some ⟨"data:image/svg+xml;base64,cleared:sized:PHN2Zz4",
        ImageAssetType.Icon, some "#ff0000"⟩, []) ∧
    deriveImageAssetTypeAndUri svgCcEnv twoColorImage none =
      (some ⟨"data:image/svg+xml;base64,sized:PHN2Zz4",
        ImageAssetType.Icon, none⟩, []) := by
  constructor
  · exact (derive_single_color_icon svgOneColorEnv twoColorImage
      ⟨"image/svg+xml", "image/svg+xml", "PHN2Zz4"⟩ rfl rfl).1
      "#ff0000" rfl (by decide) (by decide)
  · exact (derive_single_color_icon svgCcEnv twoColorImage
      ⟨"image/svg+xml", "image/svg+xml", "PHN2Zz4"⟩ rfl rfl).2 rfl

/-- C5: with no requested type, an SVG data URL whose gathered color set
has two or more distinct literal colors and no currentcolor classifies as
Picture, and the returned dataUri is exactly the image's original url,
unmodified. -/
theorem derive_multicolor_picture (env : SvgEnv) (image : ResizableImage)
    (parsed : ParsedDataUrl) (colors : List String)
    (hp : env.parseDataUrl image.url = some parsed)
    (hct : parsed.contentType = SVG_MEDIA_TYPE)
    (hcolors : env.gatherSvgColors (env.parseSvgXml (env.atob parsed.data)) = colors)
    (hlen : 2 ≤ colors.length)
    (hcc : "currentcolor" ∉ colors) :
    deriveImageAssetTypeAndUri env image none =
      (some ⟨image.url, ImageAssetType.Picture, none⟩, []) := by
  have hcont : colors.contains "currentcolor" = false := by simpa using hcc
  have hdec : decide (colors.length ≤ 1) = false := by
    simp
    omega
  unfold deriveImageAssetTypeAndUri
  dsimp only
  rw [hp]
  dsimp only
  rw [if_neg (by simp : ¬ ((none : Option ImageAssetType) = some ImageAssetType.Picture))]
  rw [if_pos hct, hcolors, hcont, hdec]
  simp

/-- Witness for C5 at the concrete two-color environment: the original data
URL comes back byte for byte. -/
theorem derive_multicolor_picture_witness :
    deriveImageAssetTypeAndUri svgTwoColorEnv twoColorImage none =
      (some ⟨"data:image/svg+xml;base64,PHN2Zz4", ImageAssetType.Picture, none⟩, []) :=
  derive_multicolor_picture svgTwoColorEnv twoColorImage
    ⟨"image/svg+xml", "image/svg+xml", "PHN2Zz4"⟩ ["#ff0000", "#00ff00"]
    rfl rfl rfl (by norm_num) (by decide)

/-- Modelled from the spec: the response of the external SVG-processing API,
either success with the sanitized xml and an aspect ratio, or failure. -/
inductive ProcessSvgResult where
  | success (xml : String) (aspectRatio : ℚ)
  | failure
deriving DecidableEq

/-- Modelled from the spec: the collaborators of `sanitizeImageDataUrl` —
the parse-data-url npm package, the data extraction and SVG data-URL
encoding helpers of @/wab/shared/data-urls (outside the reviewed sources),
and the remote SVG-processing API. -/
structure SanitizeEnv where
  parseDataUrl : String → Option ParsedDataUrl
  getParsedDataUrlData : ParsedDataUrl → String
  processSvg : String → ProcessSvgResult
  asSvgDataUrl : String → String

/-- Embedding of `asSanitizedSvgUrl` (dom-utils.ts lines 210-216): failure
from the remote call gives undefined, success re-encodes the returned xml
as an SVG data URL. -/
def asSanitizedSvgUrl (env : SanitizeEnv) (xml : String) : Option String :=
  match env.processSvg xml with
  | ProcessSvgResult.failure => none
  | ProcessSvgResult.success x _ => some (env.asSvgDataUrl x)

/-- Embedding of `sanitizeImageDataUrl` (dom-utils.ts lines 198-208): SVG
media type delegates to `asSanitizedSvgUrl`; anything else — including a
string that does not parse as a data URL — is returned unchanged. -/
def sanitizeImageDataUrl (env : SanitizeEnv) (dataUrl : String) : Option String :=
  match env.parseDataUrl dataUrl with
  | some parsed =>
    if parsed.mediaType = SVG_MEDIA_TYPE then
      asSanitizedSvgUrl env (env.getParsedDataUrlData parsed)
    else some dataUrl
  | none => some dataUrl

/-- C6: for every data URL, if its media type is SVG and processSvg returns
failure the sanitizer returns undefined; if processSvg returns success the
sanitizer returns the returned xml re-encoded as an SVG data URL; and if
the media type is not SVG the input data URL is returned unchanged. -/
theorem sanitizeImageDataUrl_cases (env : SanitizeEnv) (dataUrl : String) :
    (∀ parsed, env.parseDataUrl dataUrl = some parsed →
      parsed.mediaType = SVG_MEDIA_TYPE →
      (env.processSvg (env.getParsedDataUrlData parsed) = ProcessSvgResult.failure →
        sanitizeImageDataUrl env dataUrl = none) ∧
      (∀ xml a, env.processSvg (env.getParsedDataUrlData parsed) =
          ProcessSvgResult.success xml a →
        sanitizeImageDataUrl env dataUrl = some (env.asSvgDataUrl xml))) ∧
    (∀ parsed, env.parseDataUrl dataUrl = some parsed →
      parsed.mediaType ≠ SVG_MEDIA_TYPE →
      sanitizeImageDataUrl env dataUrl = some dataUrl) := by
  constructor
  · intro parsed hp hm
    constructor
    · intro hfail
      unfold sanitizeImageDataUrl asSanitizedSvgUrl
      rw [hp]
      dsimp only
      rw [if_pos hm, hfail]
    · intro xml a hsucc
      unfold sanitizeImageDataUrl asSanitizedSvgUrl
      rw [hp]
      dsimp only
      rw [if_pos hm, hsucc]
  · intro parsed hp hm
    unfold sanitizeImageDataUrl
    rw [hp]
    dsimp only
    rw [if_neg hm]

/-- Concrete sanitizer environment whose remote call fails. -/
def sanitizeFailEnv : SanitizeEnv where
  parseDataUrl := fun _ => some ⟨"image/svg+xml", "image/svg+xml", "PHN2Zz4"⟩
  getParsedDataUrlData := fun p => p.data
  processSvg := fun _ => ProcessSvgResult.failure
  asSvgDataUrl := fun s => "data:image/svg+xml;base64," ++ s

/-- Concrete sanitizer environment whose remote call succeeds, tagging the
xml it returns. -/
def sanitizeOkEnv : SanitizeEnv :=
  { sanitizeFailEnv with
    processSvg := fun x => ProcessSvgResult.success ("clean:" ++ x) 2 }

/-- Concrete sanitizer environment for a non-SVG (PNG) data URL. -/
def sanitizePngEnv : SanitizeEnv :=
  { sanitizeFailEnv with
    parseDataUrl := fun _ => some ⟨"image/png", "image/png", "AAAA"⟩ }

/-- Witness for C6 covering all three cases at concrete environments. -/
theorem sanitizeImageDataUrl_cases_witness :
    sanitizeImageDataUrl sanitizeFailEnv "data:image/svg+xml;base64,PHN2Zz4" = none ∧
    sanitizeImageDataUrl sanitizeOkEnv "data:image/svg+xml;base64,PHN2Zz4" =
      some "data:image/svg+xml;base64,clean:PHN2Zz4" ∧
    sanitizeImageDataUrl sanitizePngEnv "data:image/png;base64,AAAA" =
      some "data:image/png;base64,AAAA" := by
  refine ⟨?_, ?_, ?_⟩
  · exact ((sanitizeImageDataUrl_cases sanitizeFailEnv _).1 _ rfl rfl).1 rfl
  · exact ((sanitizeImageDataUrl_cases sanitizeOkEnv _).1 _ rfl rfl).2
      "clean:PHN2Zz4" 2 rfl
  · exact (sanitizeImageDataUrl_cases sanitizePngEnv _).2 _ rfl (by decide)

/-- Modelled from the spec: the asynchronous collaborators of
`tryDownscale` — the external downscale npm routine and the browser-based
`deriveImageSize`; a rejected promise is `Except.error`. -/
structure DownscaleEnv where
  downscale : String → Nat → Nat → Except String String
  deriveImageSize : String → Except String (Nat × Nat)

/-- Target dimensions computed by `tryDownscale` (dom-utils.ts lines
145-148): the larger dimension is clamped to MaxImageDim, the other is
encoded as 0 (auto); on a tie the height branch is taken. -/
def downscaleTarget (width height : Nat) : Nat × Nat :=
  (if width > height then min width MaxImageDim else 0,
   if width ≤ height then min height MaxImageDim else 0)

/-- Embedding of `ResizableImage.tryDownscale` (dom-utils.ts lines 136-169)
as a state transformer: below both dimension bounds and the byte threshold
nothing happens; otherwise downscale is called at `downscaleTarget`; the
try/catch is modelled exactly — a failing downscale leaves the image as is,
while a deriveImageSize failure after a successful downscale leaves the
already-assigned url in place with the old width/height; every failure only
logs and the function returns normally. -/
def ResizableImage.tryDownscale (env : DownscaleEnv) (img : ResizableImage) :
    ResizableImage :=
  if img.width < MaxImageDim ∧ img.height < MaxImageDim ∧
      img.url.length < DownscaleImageSizeThreshold then
    img
  else
    let target := downscaleTarget img.width img.height
    match env.downscale img.url target.1 target.2 with
    | Except.error _ => img
    | Except.ok newUrl =>
      match env.deriveImageSize newUrl with
      | Except.error _ => { img with url := newUrl }
      | Except.ok (w, h) => { img with url := newUrl, width := w, height := h }

/-- C7: tryDownscale performs no mutation when width and height are below
4096 and the encoded payload is below 4 MiB; otherwise the downscale target
sets whichever of width/height is strictly larger to min(itself, 4096) and
encodes the other dimension as 0; in particular width 5000, height 2000
gives the target (4096, 0). -/
theorem tryDownscale_skip_and_target (env : DownscaleEnv) (img : ResizableImage) :
    (img.width < MaxImageDim → img.height < MaxImageDim →
      img.url.length < DownscaleImageSizeThreshold →
      ResizableImage.tryDownscale env img = img) ∧
    (img.height < img.width →
      downscaleTarget img.width img.height = (min img.width MaxImageDim, 0)) ∧
    (img.width < img.height →
      downscaleTarget img.width img.height = (0, min img.height MaxImageDim)) ∧
    downscaleTarget 5000 2000 = (4096, 0) := by
  refine ⟨?_, ?_, ?_, by decide⟩
  · intro h1 h2 h3
    unfold ResizableImage.tryDownscale
    rw [if_pos ⟨h1, h2, h3⟩]
  · intro h
    unfold downscaleTarget
    rw [if_pos h, if_neg (by omega)]
  · intro h
    unfold downscaleTarget
    rw [if_neg (by omega), if_pos (by omega)]

/-- Image small enough that downscaling is skipped. -/
def smallImage : ResizableImage := ⟨"small-data-url", 100, 50, none⟩

/-- Image whose width exceeds MaxImageDim. -/
def bigImage : ResizableImage := ⟨"big-url", 5000, 2000, none⟩

/-- Environment whose downscale step succeeds but whose size derivation
rejects. -/
def downscaleSizeFailEnv : DownscaleEnv :=
  ⟨fun _ _ _ => Except.ok "small-url", fun _ => Except.error "cannot decode"⟩

/-- Environment whose downscale step itself rejects. -/
def downscaleFailEnv : DownscaleEnv :=
  ⟨fun _ _ _ => Except.error "downscale failed", fun _ => Except.ok (1, 1)⟩

/-- Witness for C7: the small image is untouched (via the theorem's first
part applied at a concrete environment), and the 5000 by 2000 target is
(4096, 0). -/
theorem tryDownscale_skip_and_target_witness :
    ResizableImage.tryDownscale downscaleFailEnv smallImage = smallImage ∧
    downscaleTarget 5000 2000 = (4096, 0) := by
  refine ⟨?_, (tryDownscale_skip_and_target downscaleFailEnv smallImage).2.2.2⟩
  exact (tryDownscale_skip_and_target downscaleFailEnv smallImage).1
    (by decide) (by decide) (by decide)

/-- Counterexample to C8: with a downscale step that succeeds and a size
derivation that rejects, tryDownscale leaves the image with the new
downscaled url — not the url it had before the call — while width and
height keep their old values. -/
theorem tryDownscale_partial_mutation_counterexample :
    (ResizableImage.tryDownscale downscaleSizeFailEnv bigImage).url ≠ bigImage.url ∧
    (ResizableImage.tryDownscale downscaleSizeFailEnv bigImage).url = "small-url" ∧
    (ResizableImage.tryDownscale downscaleSizeFailEnv bigImage).width = bigImage.width ∧
    (ResizableImage.tryDownscale downscaleSizeFailEnv bigImage).height = bigImage.height := by
  refine ⟨by decide, rfl, rfl, rfl⟩

/-- C8 as amended: failures never escape tryDownscale (it is a total
function here) and are only logged; if the downscale step itself fails the
url, width and height are all left exactly as before; but if the size
derivation fails after a successful downscale, width and height are
preserved while the url has already been replaced by the downscaled
payload. -/
theorem tryDownscale_failure_effects (env : DownscaleEnv) (img : ResizableImage)
    (hbig : ¬ (img.width < MaxImageDim ∧ img.height < MaxImageDim ∧
      img.url.length < DownscaleImageSizeThreshold)) :
    (∀ e, env.downscale img.url (downscaleTarget img.width img.height).1
        (downscaleTarget img.width img.height).2 = Except.error e →
      ResizableImage.tryDownscale env img = img) ∧
    (∀ u e, env.downscale img.url (downscaleTarget img.width img.height).1
        (downscaleTarget img.width img.height).2 = Except.ok u →
      env.deriveImageSize u = Except.error e →
      ResizableImage.tryDownscale env img = { img with url := u }) := by
  constructor
  · intro e he
    unfold ResizableImage.tryDownscale
    rw [if_neg hbig]
    dsimp only
    rw [he]
  · intro u e hu he
    unfold ResizableImage.tryDownscale
    rw [if_neg hbig]
    dsimp only
    rw [hu]
    dsimp only
    rw [he]

/-- Witness for the amended C8 theorem: a failing downscale leaves the big
image untouched; a failing size derivation after a successful downscale
leaves it with the new url and the old dimensions. -/
theorem tryDownscale_failure_effects_witness :
    ResizableImage.tryDownscale downscaleFailEnv bigImage = bigImage ∧
    ResizableImage.tryDownscale downscaleSizeFailEnv bigImage =
      { bigImage with url := "small-url" } := by
  constructor
  · exact (tryDownscale_failure_effects downscaleFailEnv bigImage
      (by decide)).1 "downscale failed" rfl
  · exact (tryDownscale_failure_effects downscaleSizeFailEnv bigImage
      (by decide)).2 "small-url" "cannot decode" rfl rfl

/-- Modelled from the spec: the response of the external image-upload API —
the canonical stored URI plus optional dimensions, aspect ratio and a
non-fatal warning string. -/
structure UploadedImage where
  dataUri : String
  width : Option Nat
  height : Option Nat
  aspectRatio : Option ℚ
  warning : Option String
deriving DecidableEq

/-- The `file` argument of `maybeUploadImage`: a File object (of which only
the name is ever read) or a plain string, or absent. -/
inductive FileOrString where
  | file (name : String)
  | str (s : String)
deriving DecidableEq

/-- The `name` computation of dom-utils.ts line 310:
`file instanceof File ? file?.name : file`. -/
def fileName : Option FileOrString → Option String
  | some (FileOrString.file n) => some n
  | some (FileOrString.str s) => some s
  | none => none

/-- Collaborators of `maybeUploadImage`: the classifier environment, the
data-URI-to-blob conversion (a blob is modelled by its payload string), the
external upload API, and the downscale collaborators used on the Icon
path. -/
structure UploadEnv where
  svg : SvgEnv
  imageDataUriToBlob : String → String
  uploadImageFile : String → UploadedImage
  downscaleEnv : DownscaleEnv

/-- Observable side effects of `maybeUploadImage`, in order: a call to the
upload API with a blob, a user-facing warning, or a user-facing error
notification forwarded from the classifier. -/
inductive UploadEffect where
  | uploadCall (blob : String)
  | warn (message : String)
  | errorNote (message : String)
deriving DecidableEq

/-- The `ImageAssetOpts` record of dom-utils.ts lines 172-176. -/
structure ImageAssetOpts where
  type : ImageAssetType
  iconColor : Option String
  name : Option String
deriving DecidableEq

/-- Return shape of `maybeUploadImage`: a JavaScript object with optional
imageResult and opts fields; `⟨none, none⟩` is the empty object `{}`. -/
structure MaybeUploadResult where
  imageResult : Option ResizableImage
  opts : Option ImageAssetOpts
deriving DecidableEq

/-- Embedding of `maybeUploadImage` (dom-utils.ts lines 273-314).  When the
classifier returns undefined the result is the empty object; a Picture goes
through blob conversion and the upload API (merging the response with the
input image's dimensions via the JavaScript nullish coalescing operator); an
Icon is downscaled locally instead.  The second component records the side
effects. -/
def maybeUploadImage (env : UploadEnv) (image : ResizableImage)
    (type : Option ImageAssetType) (file : Option FileOrString) :
    MaybeUploadResult × List UploadEffect :=
  let res0 := deriveImageAssetTypeAndUri env.svg image type
  match res0.1 with
  | none => (⟨none, none⟩, res0.2.map UploadEffect.errorNote)
  | some res =>
    let step :=
      if res.type = ImageAssetType.Picture then
        let blob := env.imageDataUriToBlob res.dataUri
        let uploadedImage := env.uploadImageFile blob
        let warnings :=
          match uploadedImage.warning with
          | some w => [UploadEffect.warn w]
          | none => []
        (ResizableImage.mk uploadedImage.dataUri
          (uploadedImage.width.getD image.width)
          (uploadedImage.height.getD image.height)
          (match uploadedImage.aspectRatio with
           | some a => some a
           | none => image.actualAspectRatio),
         UploadEffect.uploadCall blob :: warnings)
      else
        (ResizableImage.tryDownscale env.downscaleEnv
          ⟨res.dataUri, image.width, image.height, image.scaledRoundedAspectRatio⟩,
         ([] : List UploadEffect))
    (⟨some step.1, some ⟨res.type, res.iconColor, fileName file⟩⟩,
     res0.2.map UploadEffect.errorNote ++ step.2)

/-- C9: when classification yields an Icon, `maybeUploadImage` makes no call
to the upload API: it returns the classified dataUri with the input image's
width and height after only a local downscale attempt, and its side-effect
trace contains no upload call; conversely an upload call in the trace can
only happen when the classified type is Picture. -/
theorem maybeUploadImage_icon_local (env : UploadEnv) (image : ResizableImage)
    (type : Option ImageAssetType) (file : Option FileOrString) (res : DeriveResult)
    (hres : (deriveImageAssetTypeAndUri env.svg image type).1 = some res) :
    (res.type = ImageAssetType.Icon →
      maybeUploadImage env image type file =
        (⟨some (ResizableImage.tryDownscale env.downscaleEnv
            ⟨res.dataUri, image.width, image.height, image.scaledRoundedAspectRatio⟩),
          some ⟨ImageAssetType.Icon, res.iconColor, fileName file⟩⟩,
         (deriveImageAssetTypeAndUri env.svg image type).2.map UploadEffect.errorNote) ∧
      ∀ b, UploadEffect.uploadCall b ∉ (maybeUploadImage env image type file).2) ∧
    (∀ b, UploadEffect.uploadCall b ∈ (maybeUploadImage env image type file).2 →
      res.type = ImageAssetType.Picture) := by
  constructor
  · intro hicon
    have heq : maybeUploadImage env image type file =
        (⟨some (ResizableImage.tryDownscale env.downscaleEnv
            ⟨res.dataUri, image.width, image.height, image.scaledRoundedAspectRatio⟩),
          some ⟨ImageAssetType.Icon, res.iconColor, fileName file⟩⟩,
         (deriveImageAssetTypeAndUri env.svg image type).2.map UploadEffect.errorNote) := by
      unfold maybeUploadImage
      dsimp only
      rw [hres]
      dsimp only
      rw [if_neg (by simp [hicon])]
      rw [hicon]
      simp
    refine ⟨heq, ?_⟩
    intro b hb
    rw [heq] at hb
    simp at hb
  · intro b hb
    by_cases hpt : res.type = ImageAssetType.Picture
    · exact hpt
    · exfalso
      have heq2 : (maybeUploadImage env image type file).2 =
          (deriveImageAssetTypeAndUri env.svg image type).2.map UploadEffect.errorNote := by
        unfold maybeUploadImage
        dsimp only
        rw [hres]
        dsimp only
        rw [if_neg hpt]
        simp
      rw [heq2] at hb
      simp at hb

/-- Upload environment over the one-color SVG classifier environment; the
upload API response is irrelevant on the Icon path. -/
def uploadIconEnv : UploadEnv :=
  ⟨svgOneColorEnv, fun s => "blob:" ++ s,
   fun _ => ⟨"https://cdn/stored", some 10, some 20, some 1, some "too large"⟩,
   downscaleFailEnv⟩

/-- Witness for C9: on the concrete one-color SVG the classified Icon asset
comes back with the input dimensions (the local downscale attempt skips a
small image) and the trace holds no upload call. -/
theorem maybeUploadImage_icon_local_witness :
    maybeUploadImage uploadIconEnv twoColorImage none none =
      (⟨some ⟨"data:image/svg+xml;base64,cleared:sized:PHN2Zz4", 100, 50, none⟩,
        some ⟨ImageAssetType.Icon, some "#ff0000", none⟩⟩, []) ∧
    ∀ b, UploadEffect.uploadCall b ∉
      (maybeUploadImage uploadIconEnv twoColorImage none none).2 := by
  have h := (maybeUploadImage_icon_local uploadIconEnv twoColorImage none none
    ⟨"data:image/svg+xml;base64,cleared:sized:PHN2Zz4", ImageAssetType.Icon,
      some "#ff0000"⟩ rfl).1 rfl
  refine ⟨?_, h.2⟩
  rw [h.1]
  rfl

/-- C10: when classification fails (`deriveImageAssetTypeAndUri` returns
undefined, for instance because the url does not parse as a data URL),
`maybeUploadImage` returns the empty object — neither imageResult nor opts
— rather than undefined or an exception (the embedding is a total
function). -/
theorem maybeUploadImage_no_classification_empty (env : UploadEnv)
    (image : ResizableImage) (type : Option ImageAssetType)
    (file : Option FileOrString)
    (hres : (deriveImageAssetTypeAndUri env.svg image type).1 = none) :
    (maybeUploadImage env image type file).1 = ⟨none, none⟩ := by
  unfold maybeUploadImage
  dsimp only
  rw [hres]

/-- Upload environment whose data URL never parses, so classification
fails. -/
def uploadParseFailEnv : UploadEnv :=
  ⟨parseFailEnv, fun s => "blob:" ++ s,
   fun _ => ⟨"stored", none, none, none, none⟩, downscaleFailEnv⟩

/-- Witness for C10 at the non-parsing environment. -/
theorem maybeUploadImage_no_classification_empty_witness :
    (maybeUploadImage uploadParseFailEnv twoColorImage none none).1 = ⟨none, none⟩ :=
  maybeUploadImage_no_classification_empty uploadParseFailEnv twoColorImage none none rfl
